import Mathlib

/-!
Verification of the sector-relative performance pipeline
(`BackEnd_02` variants of Kab1e/Project_Summer_2025).

We shallowly embed the pure decision logic of the four Python variants:
the pandas `Series.quantile` (linear interpolation) used on peer returns,
the three-tier quartile classifier of `BackEnd_02_for_deploy.py` /
`BackEnd_02_Sector_Performance.py` / `BackEnd_02_try.py`, the peer-list
selection of each variant, the Alpha Vantage request/retry loop
(`_av_request`), the sector resolvers, the result-table sort, and the
two-tier mean comparison of `BackEnd_02_try2.py`.  Machine floats are
modelled by ℚ: every quantity the claims touch is produced by field
operations on finitely many inputs, exact at the small concrete values used.
-/

namespace SectorPerf

/-- Ascending sort of a list of rationals.  Models the ascending value sort
performed by `pandas` before interpolating a quantile (any sorted
permutation is the same list of values, so a stable insertion sort is a
faithful model of numpy's introsort). -/
def sortAsc (xs : List ℚ) : List ℚ := xs.insertionSort (· ≤ ·)

/-- Linear interpolation of a sorted list `s` at fractional index `h`: with
`i = ⌊h⌋`, the value is `s[i] + (h - i) * (s[i+1] - s[i])` when `i + 1`
is still in range and the last element otherwise (at the top index the
fractional part is zero). -/
def interpAt (s : List ℚ) (h : ℚ) : ℚ :=
  if (⌊h⌋).toNat + 1 < s.length then
    s.getD (⌊h⌋).toNat 0
      + (h - ((⌊h⌋).toNat : ℚ))
        * (s.getD ((⌊h⌋).toNat + 1) 0 - s.getD (⌊h⌋).toNat 0)
  else
    s.getD (s.length - 1) 0

/-- `pandas.Series.quantile(p)` with the default linear interpolation, on an
already-sorted list `s` of length `n`: linear interpolation at the
fractional index `h = p * (n - 1)`. -/
def quantileSorted (s : List ℚ) (p : ℚ) : ℚ :=
  interpAt s (p * ((s.length : ℚ) - 1))

/-- `pandas.Series(xs).quantile(p)`: sort ascending, then interpolate. -/
def quantile (xs : List ℚ) (p : ℚ) : ℚ := quantileSorted (sortAsc xs) p

/-- The three-tier if/elif/else of `sector_1d_comparison`
(`BackEnd_02_for_deploy.py` lines 107-124): `>= q75` is checked first,
then `<= q25`, else in-line. -/
def classify (tgtPct q75 q25 : ℚ) : String × Int :=
  if tgtPct ≥ q75 then ("Leading", 3)
  else if tgtPct ≤ q25 then ("Underperforming", -3)
  else ("In-Line", 0)

/-- The scoring tail of `sector_1d_comparison` in `BackEnd_02_for_deploy.py`
(lines 104-124) and `BackEnd_02_try.py` (lines 122-146): when the peer
return list is empty the series is replaced by `[tgt_pct]`
(`series = pd.Series(peer_pct) if peer_pct else pd.Series([tgt_pct])`),
then `q75`/`q25` are its quantiles and the classifier runs. -/
def sectorComparison (tgtPct : ℚ) (peerPct : List ℚ) : String × Int :=
  let series := if peerPct.isEmpty then [tgtPct] else peerPct
  classify tgtPct (quantile series (3/4)) (quantile series (1/4))

/-- The curated sector-leader directory shared by `BackEnd_02_for_deploy.py`,
`BackEnd_02_Sector_Performance.py` and `BackEnd_02_try.py` (4 symbols per
sector). -/
def SECTOR_LEADERS : List (String × List String) :=
  [("Communication Services", ["META", "GOOGL", "TMUS", "VZ"]),
   ("Consumer Discretionary", ["AMZN", "TSLA", "F", "HD"]),
   ("Consumer Staples", ["COST", "PG", "WMT", "KO"]),
   ("Energy", ["XOM", "CVX", "COP", "SLB"]),
   ("Financials", ["JPM", "BAC", "GS", "MS"]),
   ("Health Care", ["JNJ", "PFE", "UNH", "ABBV"]),
   ("Industrials", ["GE", "HON", "UPS", "CAT"]),
   ("Information Technology", ["AAPL", "MSFT", "NVDA", "PLTR"]),
   ("Materials", ["NEM", "LIN", "APD", "FCX"]),
   ("Real Estate", ["PLD", "SPG", "CCI", "O"]),
   ("Utilities", ["NEE", "DUK", "SO", "EXC"])]

/-- The sector-leader directory of `BackEnd_02_try2.py` (5 symbols per
sector, no cap anywhere in that variant). -/
def SECTOR_LEADERS_try2 : List (String × List String) :=
  [("Communication Services", ["META", "GOOGL", "GOOG", "VZ", "TMUS"]),
   ("Consumer Discretionary", ["AMZN", "TSLA", "HD", "MCD", "NKE"]),
   ("Consumer Staples", ["PG", "KO", "PEP", "WMT", "COST"]),
   ("Energy", ["XOM", "CVX", "COP", "EOG", "SLB"]),
   ("Financials", ["JPM", "BAC", "MS", "GS", "C"]),
   ("Health Care", ["UNH", "JNJ", "LLY", "PFE", "MRK"]),
   ("Industrials", ["HON", "GE", "UPS", "UNP", "CAT"]),
   ("Information Technology", ["AAPL", "MSFT", "NVDA", "AVGO", "PLTR"]),
   ("Materials", ["LIN", "NEM", "FCX", "APD", "DD"]),
   ("Real Estate", ["AMT", "PLD", "CCI", "EQIX", "DLR"]),
   ("Utilities", ["NEE", "DUK", "SO", "D", "EXC"])]

/-- `SECTOR_LEADERS.get(sector, [])` (Python dict lookup with default). -/
def leadersFor (directory : List (String × List String)) (sector : String) :
    List String :=
  (directory.lookup sector).getD []

/-- Peer selection of `BackEnd_02_for_deploy.py` line 86 and
`BackEnd_02_try.py` lines 95-96:
`peers = [p for p in SECTOR_LEADERS.get(sector, []) if p != ticker][:4]`. -/
def peersDeploy (ticker : String) (leaders : List String) : List String :=
  (leaders.filter (fun p => p ≠ ticker)).take 4

/-- `Companies_in_Same_Sector_for_comparison` of
`BackEnd_02_Sector_Performance.py` lines 41-52, restricted to the case where
the sector is present in the directory (otherwise that function returns the
string sentinel "SOMETHING WENT WRONG" instead of a list): if the ticker is
among the leaders it is removed, otherwise the first 3 leaders are taken. -/
def companiesInSameSector (ticker : String) (leaders : List String) :
    List String :=
  if ticker ∈ leaders then leaders.filter (fun t => t ≠ ticker)
  else leaders.take 3

/-- The effective comparison peer set of `BackEnd_02_try2.py`
(lines 92-96 and 113): `peers = SECTOR_LEADERS.get(sector, [])`, the target
is prepended to the download list only when absent, and the peer statistics
use `pct_series.drop(ticker)`, i.e. every row whose symbol is the target is
dropped.  In both branches this is the leader list with the target
filtered out — with no length cap. -/
def peersTry2 (ticker : String) (leaders : List String) : List String :=
  leaders.filter (fun p => p ≠ ticker)

/-- One Alpha Vantage JSON response, as far as `_av_request` inspects it:
presence of a "Note" key, presence of an "Information" key, an optional
"Error Message" value, and (for the OVERVIEW endpoint) an optional
"Sector" value.  The whole record stands for the returned payload. -/
structure AVData where
  hasNote : Bool
  hasInf : Bool
  errMsg : Option String
  sector : Option String
deriving DecidableEq, Repr

/-- `_av_request` of `BackEnd_02_for_deploy.py` lines 56-68 /
`BackEnd_02_try.py` lines 40-55, modelled over the sequence of responses the
provider would return to the successive attempts.  On a throttle notice
("Note" or "Information" key) it sleeps and reissues the request, consuming
the next response; on an "Error Message" it raises `ValueError` at once;
otherwise it returns the payload.  The result also counts the retries;
`none` models the loop never terminating (provider throttles forever). -/
def avRequest : List AVData → Option (Except String AVData × Nat)
  | [] => none
  | d :: rest =>
    if d.hasNote || d.hasInf then
      match avRequest rest with
      | some (r, k) => some (r, k + 1)
      | none => none
    else
      match d.errMsg with
      | some m => some (Except.error m, 0)
      | none => some (Except.ok d, 0)

/-- A throttle-notice response (`{"Note": ...}`). -/
def throttleNote : AVData := ⟨true, false, none, none⟩

/-- `YF_TO_GICS` of `BackEnd_02_for_deploy.py`. -/
def YF_TO_GICS : List (String × String) :=
  [("basic-materials", "Materials"),
   ("communication-services", "Communication Services"),
   ("consumer-cyclical", "Consumer Discretionary"),
   ("consumer-defensive", "Consumer Staples"),
   ("energy", "Energy"),
   ("financial-services", "Financials"),
   ("healthcare", "Health Care"),
   ("industrials", "Industrials"),
   ("real-estate", "Real Estate"),
   ("technology", "Information Technology"),
   ("utilities", "Utilities")]

/-- What `yf.Ticker(t).get_info()` yields to `get_sector` in
`BackEnd_02_for_deploy.py`: either any raised exception (`err`) or an info
dict, of which only the "sectorKey" and "sector" entries are read. -/
inductive YFInfo where
  | err : YFInfo
  | ok (sectorKey : Option String) (sector : Option String) : YFInfo

/-- Python `a or b` on two optional strings: `a` unless it is `None` or
falsy (the empty string). -/
def pyOr (a b : Option String) : Option String :=
  match a with
  | some s => if s = "" then b else some s
  | none => b

/-- `get_sector` of `BackEnd_02_for_deploy.py` lines 44-54: the whole body
is wrapped in `try/except Exception: return None`;
`raw_key = info.get("sectorKey") or info.get("sector")`; `None` when
missing, else `YF_TO_GICS.get(str(raw_key).lower(), raw_key)`. -/
def get_sector (info : YFInfo) : Option String :=
  match info with
  | .err => none
  | .ok sectorKey sector =>
    match pyOr sectorKey sector with
    | none => none
    | some raw => some ((YF_TO_GICS.lookup raw.toLower).getD raw)

/-- `sector = get_sector(ticker) or "Unknown"` in `sector_1d_comparison`
(`BackEnd_02_for_deploy.py` line 84). -/
def resolvedSector (info : YFInfo) : String :=
  match get_sector info with
  | some s => if s = "" then "Unknown" else s
  | none => "Unknown"

/-- `get_sector` of `BackEnd_02_try.py` lines 61-66: it calls `_av_request`
with no exception handler, so a `ValueError` raised there propagates to the
caller (`Except.error`); otherwise
`sector = data.get("Sector"); return sector if sector else None`. -/
def get_sector_try (responses : List AVData) :
    Option (Except String (Option String)) :=
  match avRequest responses with
  | none => none
  | some (Except.error m, _) => some (Except.error m)
  | some (Except.ok d, _) =>
    some (Except.ok (match d.sector with
      | some s => if s = "" then none else some s
      | none => none))

/-- `get_sector` of `BackEnd_02_Sector_Performance.py` lines 35-39:
`info = yf.Ticker(ticker).info` with no exception handler, so a provider
exception propagates to the caller (`Except.error ()`); otherwise
`YF_sector_key = info.get("sectorKey")` and the result is
`YF_TO_GICS.get(YF_sector_key, None)` — `None` (never "Unknown") when the
field is missing or unmapped.  This variant never lowercases the key and
never reads the "sector" field. -/
def get_sector_perf : YFInfo → Except Unit (Option String)
  | YFInfo.err => Except.error ()
  | YFInfo.ok sectorKey _ =>
    Except.ok (sectorKey.bind (fun k => YF_TO_GICS.lookup k))

/-- One row of the comparison DataFrame built by `sector_1d_comparison`
(`BackEnd_02_for_deploy.py` lines 92-97): a group label ("Target" or
"Same Sector"), the symbol, the two closes, and the percent return already
formatted as the string `f"{pct:+.2f}"` — the "1-Day %" column holds
strings, not numbers. -/
structure Row where
  group : String
  symbol : String
  prevClose : ℚ
  lastClose : ℚ
  pct : String
deriving DecidableEq, Repr

/-- The row order realised by
`.sort_values(["Group", "1-Day %"], ascending=[True, False])`
(`BackEnd_02_for_deploy.py` lines 97-101): group label ascending
(lexicographic string order), and within a group the formatted percent
string descending (again plain string order — pandas compares the column's
values, which here are strings). -/
def rowLe (a b : Row) : Prop :=
  a.group < b.group ∨ (a.group = b.group ∧ (b.pct < a.pct ∨ a.pct = b.pct))

instance : DecidableRel rowLe := fun a b => by unfold rowLe; infer_instance

instance : IsTotal Row rowLe where
  total a b := by
    unfold rowLe
    rcases lt_trichotomy a.group b.group with h | h | h
    · exact Or.inl (Or.inl h)
    · rcases lt_trichotomy a.pct b.pct with h2 | h2 | h2
      · exact Or.inr (Or.inr ⟨h.symm, Or.inl h2⟩)
      · exact Or.inl (Or.inr ⟨h, Or.inr h2⟩)
      · exact Or.inl (Or.inr ⟨h, Or.inl h2⟩)
    · exact Or.inr (Or.inl h)

instance : IsTrans Row rowLe where
  trans a b c hab hbc := by
    unfold rowLe at hab hbc ⊢
    rcases hab with h1 | ⟨e1, h1⟩
    · rcases hbc with h2 | ⟨e2, _⟩
      · exact Or.inl (h1.trans h2)
      · exact Or.inl (lt_of_lt_of_eq h1 e2)
    · rcases hbc with h2 | ⟨e2, h2⟩
      · exact Or.inl (lt_of_eq_of_lt e1 h2)
      · refine Or.inr ⟨e1.trans e2, ?_⟩
        rcases h1 with h1 | h1
        · rcases h2 with h2 | h2
          · exact Or.inl (h2.trans h1)
          · exact Or.inl (lt_of_eq_of_lt h2.symm h1)
        · rcases h2 with h2 | h2
          · exact Or.inl (lt_of_lt_of_eq h2 h1.symm)
          · exact Or.inr (h1.trans h2)

/-- The sort applied to the rows of the comparison table
(`.sort_values(["Group", "1-Day %"], ascending=[True, False])`). -/
def sortTable (rows : List Row) : List Row := rows.insertionSort rowLe

/-- Python `f"{pct:+.2f}"`, for arguments that are exact multiples of
`1/100` (all values used below are; for such `q` the numerator of `q * 100`
is exactly the integer `100 * q`, no rounding occurs, and this agrees with
Python's round-half-even formatting). -/
def fmt2 (q : ℚ) : String :=
  let c : Int := (q * 100).num
  let sign := if c < 0 then "-" else "+"
  let a := c.natAbs
  let fp := a % 100
  sign ++ toString (a / 100) ++ "." ++ (if fp < 10 then "0" ++ toString fp else toString fp)

/-- `pct = (last_c - prev_c) / prev_c * 100` (`BackEnd_02_for_deploy.py`
line 91). -/
def pctReturn (prevC lastC : ℚ) : ℚ := (lastC - prevC) / prevC * 100

/-- One row as appended by `rows.append((...))` in
`BackEnd_02_for_deploy.py` line 95. -/
def mkRow (ticker sym : String) (prevC lastC : ℚ) : Row :=
  { group := if sym = ticker then "Target" else "Same Sector"
    symbol := sym
    prevClose := prevC
    lastClose := lastC
    pct := fmt2 (pctReturn prevC lastC) }

/-- The comparison DataFrame of `sector_1d_comparison`
(`BackEnd_02_for_deploy.py` lines 89-101) as a function of the fetched
quotes `(symbol, prev_close, last_close)`: build a row per symbol, then
sort by group ascending and formatted-percent string descending. -/
def buildTable (ticker : String) (quotes : List (String × ℚ × ℚ)) :
    List Row :=
  sortTable (quotes.map (fun q => mkRow ticker q.1 q.2.1 q.2.2))

/-- The two-tier comparison of `BackEnd_02_try2.py` lines 113-117:
`status = "Outperform" if tgt_ret > peer_mean else "Underperform"`,
`signal = 1 if status == "Outperform" else -1`. -/
def classifyTwoTier (tgtRet peerMean : ℚ) : String × Int :=
  let status := if tgtRet > peerMean then "Outperform" else "Underperform"
  (status, if status = "Outperform" then 1 else -1)

/-- C1: for every target return and non-empty peer-return distribution the
three-tier classifier is exactly: `target ≥ q75` gives "Leading" with +3,
otherwise `target ≤ q25` gives "Underperforming" with -3, otherwise
"In-Line" with 0, where `q75`/`q25` are the linear-interpolation percentiles of
the peer returns. -/
theorem C1_three_tier_classification (tgt : ℚ) (peers : List ℚ)
    (hne : peers ≠ []) :
    (quantile peers (3/4) ≤ tgt →
      sectorComparison tgt peers = ("Leading", 3)) ∧
    (tgt < quantile peers (3/4) → tgt ≤ quantile peers (1/4) →
      sectorComparison tgt peers = ("Underperforming", -3)) ∧
    (tgt < quantile peers (3/4) → quantile peers (1/4) < tgt →
      sectorComparison tgt peers = ("In-Line", 0)) := by
  match peers, hne with
  | a :: as, _ =>
    refine ⟨fun h1 => ?_, fun h1 h2 => ?_, fun h1 h2 => ?_⟩
    · simp only [sectorComparison, List.isEmpty_cons, if_neg Bool.false_ne_true,
        classify, ge_iff_le, if_pos h1]
    · simp only [sectorComparison, List.isEmpty_cons, if_neg Bool.false_ne_true,
        classify, ge_iff_le, if_neg (not_le.mpr h1), if_pos h2]
    · simp only [sectorComparison, List.isEmpty_cons, if_neg Bool.false_ne_true,
        classify, ge_iff_le, if_neg (not_le.mpr h1), if_neg (not_le.mpr h2)]

/-- Witness for C1: peers `[1, 2, 3, 4]`, target `4` (above `q75 = 3.25`)
classifies as "Leading" with +3. -/
theorem C1_three_tier_classification_witness :
    sectorComparison 4 [1, 2, 3, 4] = ("Leading", 3) :=
  (C1_three_tier_classification 4 [1, 2, 3, 4] (by decide)).1 (by
    norm_num [quantile, quantileSorted, interpAt, sortAsc, List.insertionSort, List.orderedInsert]
    try simp
    try norm_num)

/-- C2 counterexample: with an empty peer set and target return `5`, the
code substitutes `q75 = q25 = 5` and then the `>=` branch fires first, so
the result is "Leading" with +3 — not "In-Line" with 0 as the claim states. -/
theorem C2_empty_peer_counterexample :
    quantile [(5 : ℚ)] (3/4) = 5 ∧ quantile [(5 : ℚ)] (1/4) = 5 ∧
    sectorComparison 5 [] = ("Leading", 3) ∧
    sectorComparison 5 [] ≠ ("In-Line", 0) := by
  refine ⟨?_, ?_, ?_, ?_⟩ <;>
    · norm_num [sectorComparison, classify, quantile, quantileSorted, interpAt, sortAsc,
        List.insertionSort, List.orderedInsert]
      try simp
      try norm_num

/-- C2 amended: with an empty peer set the code substitutes the target's
own return as both quartile bounds (`q75 = q25 = target_return`), and —
because the `>=` check is applied first — every such case is classified
"Leading" with signal +3 (not "In-Line" with 0). -/
theorem C2_empty_peer_policy (tgt : ℚ) :
    quantile [tgt] (3/4) = tgt ∧ quantile [tgt] (1/4) = tgt ∧
    sectorComparison tgt [] = ("Leading", 3) := by
  have hq : ∀ p : ℚ, quantile [tgt] p = tgt := by
    intro p
    simp [quantile, quantileSorted, interpAt, sortAsc, List.insertionSort, List.orderedInsert]
  exact ⟨hq _, hq _, by simp [sectorComparison, classify, hq]⟩

/-- C3: a target return exactly equal to `q75` classifies as "Leading"
(the inclusive `>=` bound), never "In-Line"; in particular when
`q75 = q25` (identical peer returns) a target equal to that single value
still resolves to "Leading" because the `>=` check runs first. -/
theorem C3_boundary_resolves_leading (tgt : ℚ) (peers : List ℚ)
    (hne : peers ≠ []) (hq : tgt = quantile peers (3/4)) :
    sectorComparison tgt peers = ("Leading", 3) ∧
    sectorComparison tgt peers ≠ ("In-Line", 0) := by
  have h := (C1_three_tier_classification tgt peers hne).1 (le_of_eq hq.symm)
  exact ⟨h, by rw [h]; intro hcon; exact absurd (congrArg Prod.snd hcon) (by decide)⟩

/-- Witness for C3: identical peer returns `[2, 2, 2, 2]` give
`q75 = q25 = 2`, and target `2` resolves to "Leading". -/
theorem C3_boundary_resolves_leading_witness :
    sectorComparison 2 [2, 2, 2, 2] = ("Leading", 3) :=
  (C3_boundary_resolves_leading 2 [2, 2, 2, 2] (by decide) (by
    norm_num [quantile, quantileSorted, interpAt, sortAsc, List.insertionSort, List.orderedInsert]
    try simp
    try norm_num)).1

/-- C5: the three spec scenarios on peers `[1, 2, 3, 4]`: `q75 = 3.25`,
`q25 = 1.75`; target 4 is "Leading" with +3, target 1 is "Underperforming" with -3,
target 2.5 is "In-Line" with 0. -/
theorem C5_concrete_scenarios :
    quantile [1, 2, 3, 4] (3/4) = 13/4 ∧ quantile [1, 2, 3, 4] (1/4) = 7/4 ∧
    sectorComparison 4 [1, 2, 3, 4] = ("Leading", 3) ∧
    sectorComparison 1 [1, 2, 3, 4] = ("Underperforming", -3) ∧
    sectorComparison (5/2) [1, 2, 3, 4] = ("In-Line", 0) := by
  refine ⟨?_, ?_, ?_, ?_, ?_⟩ <;>
    · norm_num [sectorComparison, classify, quantile, quantileSorted, interpAt, sortAsc,
        List.insertionSort, List.orderedInsert]
      try simp
      try norm_num

/-- C7: the `_av_request` loop, over the provider's successive responses:
any number `n` of throttle notices ("Note") are absorbed by sleep-and-
reissue with no retry cap, after which a clean payload is returned with
exactly `n` retries; a hard-error payload ("Error Message") raises
immediately, with zero retries and without consuming further responses. -/
theorem C7_request_retry_loop (n : Nat) (d : AVData) (rest : List AVData)
    (hN : d.hasNote = false) (hI : d.hasInf = false) :
    (d.errMsg = none →
      avRequest (List.replicate n throttleNote ++ d :: rest) =
        some (Except.ok d, n)) ∧
    (∀ m, d.errMsg = some m →
      avRequest (d :: rest) = some (Except.error m, 0)) := by
  constructor
  · intro hE
    induction n with
    | zero => simp [avRequest, hN, hI, hE]
    | succ k ih =>
      rw [List.replicate_succ, List.cons_append]
      have h1 : throttleNote.hasNote = true := rfl
      have h2 : throttleNote.hasInf = false := rfl
      simp [avRequest, h1, h2, ih]
  · intro m hE
    simp [avRequest, hN, hI, hE]

/-- Witness for C7 (Scenario E): two throttle notices then a clean payload
succeed after exactly two retries; a hard error fails at once. -/
theorem C7_request_retry_loop_witness :
    avRequest (List.replicate 2 throttleNote ++
        [⟨false, false, none, some "Energy"⟩]) =
      some (Except.ok ⟨false, false, none, some "Energy"⟩, 2) ∧
    avRequest [⟨false, false, some "Invalid API call", none⟩] =
      some (Except.error "Invalid API call", 0) :=
  ⟨(C7_request_retry_loop 2 ⟨false, false, none, some "Energy"⟩ [] rfl rfl).1 rfl,
   (C7_request_retry_loop 0 ⟨false, false, some "Invalid API call", none⟩ [] rfl rfl).2
      "Invalid API call" rfl⟩

/-- C10: in the two-tier variant the comparison is a strict `>`, so a
target return exactly equal to the peer mean is classified
"Underperform" with -1, never "Outperform". -/
theorem C10_two_tier_equality (tgt peerMean : ℚ) (h : tgt = peerMean) :
    classifyTwoTier tgt peerMean = ("Underperform", -1) ∧
    classifyTwoTier tgt peerMean ≠ ("Outperform", 1) := by
  subst h
  refine ⟨by simp [classifyTwoTier], ?_⟩
  simp [classifyTwoTier]

/-- Witness for C10: target return `2` against peer mean `2`. -/
theorem C10_two_tier_equality_witness :
    classifyTwoTier 2 2 = ("Underperform", -1) :=
  (C10_two_tier_equality 2 2 rfl).1

/-- C4 counterexample: in `BackEnd_02_try2.py` the leader lists have 5
symbols and the peer list is never capped, so the ticker "IBM"
(resolved to "Information Technology", not itself a leader) is compared
against 5 peers — more than the claimed cap of 4. -/
theorem C4_peer_cap_counterexample :
    (peersTry2 "IBM" (leadersFor SECTOR_LEADERS_try2 "Information Technology")).length
      = 5 ∧
    ¬ (peersTry2 "IBM"
        (leadersFor SECTOR_LEADERS_try2 "Information Technology")).length ≤ 4 := by
  constructor <;> decide

/-- C4 amended: for every ticker and every leader list (so in particular
for the 5-entry try2 lists), no variant's selected peer list ever contains
the target ticker; `BackEnd_02_for_deploy.py` is unconditionally capped at
4; `BackEnd_02_Sector_Performance.py` is bounded by 4 whenever the leader
list has at most 4 entries (which all its `SECTOR_LEADERS` entries do, as
the directory conjuncts record); `BackEnd_02_try2.py` has no cap: its peer
list is only bounded by the leader list itself, so its 5-entry lists give
up to 5 peers. -/
theorem C4_peer_selection (ticker : String) (leaders : List String) :
    (ticker ∉ peersDeploy ticker leaders ∧
      (peersDeploy ticker leaders).length ≤ 4) ∧
    (ticker ∉ companiesInSameSector ticker leaders ∧
      (leaders.length ≤ 4 →
        (companiesInSameSector ticker leaders).length ≤ 4)) ∧
    (ticker ∉ peersTry2 ticker leaders ∧
      (peersTry2 ticker leaders).length ≤ leaders.length) ∧
    (leaders.length = 5 → (peersTry2 ticker leaders).length ≤ 5) ∧
    (∀ pr ∈ SECTOR_LEADERS, pr.2.length = 4) ∧
    (∀ pr ∈ SECTOR_LEADERS_try2, pr.2.length = 5) := by
  have hmemF : ticker ∉ leaders.filter (fun p => p ≠ ticker) := by
    intro hmem
    rcases List.mem_filter.mp hmem with ⟨-, hdec⟩
    exact absurd rfl (of_decide_eq_true hdec)
  refine ⟨⟨?_, ?_⟩, ⟨?_, ?_⟩, ⟨hmemF, List.length_filter_le _ _⟩, ?_, ?_, ?_⟩
  · intro hmem
    exact hmemF (List.mem_of_mem_take hmem)
  · simp only [peersDeploy, List.length_take]
    exact Nat.min_le_left _ _
  · unfold companiesInSameSector
    by_cases hmem : ticker ∈ leaders
    · rw [if_pos hmem]; exact hmemF
    · rw [if_neg hmem]; exact fun hx => hmem (List.mem_of_mem_take hx)
  · intro hlen
    unfold companiesInSameSector
    by_cases hmem : ticker ∈ leaders
    · rw [if_pos hmem]; exact le_trans (List.length_filter_le _ _) hlen
    · rw [if_neg hmem]
      simp only [List.length_take]
      omega
  · intro h5
    exact h5 ▸ List.length_filter_le _ leaders
  · decide
  · decide

/-- Witness for C4 amended, discharging both inner hypotheses at concrete
inputs: ticker "GE" against the 4-entry Industrials leader list (for the
Sector_Performance bound), and ticker "IBM" against the 5-entry try2
Information Technology leader list (for the uncapped try2 variant: the
target is still never included, and the peer list reaches the bound 5). -/
theorem C4_peer_selection_witness :
    (companiesInSameSector "GE" ["GE", "HON", "UPS", "CAT"]).length ≤ 4 ∧
    "IBM" ∉ peersTry2 "IBM" ["AAPL", "MSFT", "NVDA", "AVGO", "PLTR"] ∧
    (peersTry2 "IBM" ["AAPL", "MSFT", "NVDA", "AVGO", "PLTR"]).length ≤ 5 :=
  ⟨(C4_peer_selection "GE" ["GE", "HON", "UPS", "CAT"]).2.1.2 (by decide),
   (C4_peer_selection "IBM" ["AAPL", "MSFT", "NVDA", "AVGO", "PLTR"]).2.2.1.1,
   (C4_peer_selection "IBM" ["AAPL", "MSFT", "NVDA", "AVGO", "PLTR"]).2.2.2.1
     (by decide)⟩

/-- C8 counterexample: in the `BackEnd_02_try.py` variant, a hard provider
error ("Error Message" payload) raised by `_av_request` propagates out of
`get_sector` as a `ValueError` instead of degrading to "Unknown"; and in
the `BackEnd_02_Sector_Performance.py` variant a provider exception also
propagates (no try/except around `yf.Ticker(ticker).info`), while a
missing sector field returns `None` — not the string "Unknown". -/
theorem C8_resolver_counterexample :
    get_sector_try [⟨false, false, some "Invalid API call", none⟩] =
      some (Except.error "Invalid API call") ∧
    (∀ s : Option String,
      get_sector_try [⟨false, false, some "Invalid API call", none⟩] ≠
        some (Except.ok s)) ∧
    get_sector_perf YFInfo.err = Except.error () ∧
    (∀ s : Option String, get_sector_perf YFInfo.err ≠ Except.ok s) ∧
    get_sector_perf (YFInfo.ok none none) = Except.ok none ∧
    get_sector_perf (YFInfo.ok none none) ≠ Except.ok (some "Unknown") := by
  refine ⟨rfl, ?_, rfl, ?_, rfl, ?_⟩
  · intro s h
    rw [show get_sector_try [⟨false, false, some "Invalid API call", none⟩] =
          some (Except.error "Invalid API call") from rfl] at h
    simp at h
  · intro s h
    rw [show get_sector_perf YFInfo.err = Except.error () from rfl] at h
    simp at h
  · intro h
    rw [show get_sector_perf (YFInfo.ok none none) =
          Except.ok (none : Option String) from rfl] at h
    simp at h

/-- C8 amended: the `BackEnd_02_for_deploy.py` resolver catches every
provider exception and degrades a missing/falsy sector field to `None`, so
the resolved sector is "Unknown" and nothing is ever raised (the model is
a total function into `Option`); in the `BackEnd_02_try.py` variant a hard
provider error propagates as a `ValueError` to the caller; and in the
`BackEnd_02_Sector_Performance.py` variant a provider exception also
propagates, while a missing (or unmapped) sector field yields `None`,
never the string "Unknown". -/
theorem C8_sector_resolver_unknown :
    resolvedSector YFInfo.err = "Unknown" ∧
    resolvedSector (YFInfo.ok none none) = "Unknown" ∧
    resolvedSector (YFInfo.ok (some "") none) = "Unknown" ∧
    (∀ (m : String) (rest : List AVData),
      get_sector_try
          ({hasNote := false, hasInf := false, errMsg := some m,
            sector := none} :: rest) =
        some (Except.error m)) ∧
    get_sector_perf YFInfo.err = Except.error () ∧
    (∀ s : Option String,
      get_sector_perf (YFInfo.ok none s) = Except.ok none) :=
  ⟨rfl, rfl, rfl, fun _ _ => rfl, rfl, fun _ => rfl⟩
/-- On a `≤`-sorted list, `getD _ 0` is monotone in the index while it stays
in range. -/
lemma getD_mono_of_sorted {s : List ℚ} (hs : s.Sorted (· ≤ ·)) {i j : ℕ}
    (hij : i ≤ j) (hj : j < s.length) : s.getD i 0 ≤ s.getD j 0 := by
  have hi : i < s.length := lt_of_le_of_lt hij hj
  rw [List.getD_eq_getElem s 0 hi, List.getD_eq_getElem s 0 hj]
  have h := List.Sorted.rel_get_of_le hs (a := ⟨i, hi⟩) (b := ⟨j, hj⟩)
    (Fin.mk_le_mk.mpr hij)
  simpa [List.get_eq_getElem] using h

/-- Linear interpolation on a sorted list is monotone in the fractional
index over the valid range `[0, length - 1]`. -/
lemma interpAt_mono {s : List ℚ} (hs : s.Sorted (· ≤ ·)) (hne : s ≠ [])
    {a b : ℚ} (ha : 0 ≤ a) (hab : a ≤ b) (hb : b ≤ (s.length : ℚ) - 1) :
    interpAt s a ≤ interpAt s b := by
  have hn : 0 < s.length := List.length_pos.mpr hne
  have hb0 : 0 ≤ b := le_trans ha hab
  have hfa0 : 0 ≤ ⌊a⌋ := Int.floor_nonneg.mpr ha
  have hfb0 : 0 ≤ ⌊b⌋ := Int.floor_nonneg.mpr hb0
  have hfab : ⌊a⌋ ≤ ⌊b⌋ := Int.floor_mono hab
  have hfbN : ⌊b⌋ ≤ (s.length : ℤ) - 1 := by
    have h1 : ⌊b⌋ ≤ ⌊((s.length : ℚ) - 1)⌋ := Int.floor_mono hb
    have h2 : ⌊((s.length : ℚ) - 1)⌋ = (s.length : ℤ) - 1 := by
      rw [show ((s.length : ℚ) - 1) = ((s.length : ℚ) - ((1 : ℤ) : ℚ)) by
        push_cast
        ring]
      rw [Int.floor_sub_int, Int.floor_natCast]
    rw [h2] at h1
    exact h1
  unfold interpAt
  set ia := (⌊a⌋).toNat with hiadef
  set ib := (⌊b⌋).toNat with hibdef
  have hian : (ia : ℤ) = ⌊a⌋ := Int.toNat_of_nonneg hfa0
  have hibn : (ib : ℤ) = ⌊b⌋ := Int.toNat_of_nonneg hfb0
  have hiab : ia ≤ ib := Int.toNat_le_toNat hfab
  have hibN : ib ≤ s.length - 1 := by omega
  have hiaN : ia ≤ s.length - 1 := le_trans hiab hibN
  have haf1 : (ia : ℚ) ≤ a := by
    have h := Int.floor_le a
    rw [← hian] at h
    exact_mod_cast h
  have haf2 : a ≤ (ia : ℚ) + 1 := by
    have h := (Int.lt_floor_add_one a).le
    rw [← hian] at h
    exact_mod_cast h
  have hbf1 : (ib : ℚ) ≤ b := by
    have h := Int.floor_le b
    rw [← hibn] at h
    exact_mod_cast h
  by_cases hA : ia + 1 < s.length
  · rw [if_pos hA]
    have dA : s.getD ia 0 ≤ s.getD (ia + 1) 0 :=
      getD_mono_of_sorted hs (Nat.le_succ ia) hA
    by_cases hB : ib + 1 < s.length
    · rw [if_pos hB]
      have dB : s.getD ib 0 ≤ s.getD (ib + 1) 0 :=
        getD_mono_of_sorted hs (Nat.le_succ ib) hB
      rcases eq_or_lt_of_le hiab with heq | hlt
      · rw [heq] at haf1 haf2 ⊢
        have hmul : (a - (ib : ℚ)) * (s.getD (ib + 1) 0 - s.getD ib 0) ≤
            (b - (ib : ℚ)) * (s.getD (ib + 1) 0 - s.getD ib 0) :=
          mul_le_mul_of_nonneg_right (by linarith) (by linarith)
        linarith
      · have hprod : 0 ≤ ((ia : ℚ) + 1 - a) *
            (s.getD (ia + 1) 0 - s.getD ia 0) :=
          mul_nonneg (by linarith) (by linarith)
        have e2 : s.getD (ia + 1) 0 ≤ s.getD ib 0 :=
          getD_mono_of_sorted hs hlt (by omega)
        have e3 : 0 ≤ (b - (ib : ℚ)) * (s.getD (ib + 1) 0 - s.getD ib 0) :=
          mul_nonneg (by linarith) (by linarith)
        nlinarith [hprod, e2, e3]
    · rw [if_neg hB]
      have hprod : 0 ≤ ((ia : ℚ) + 1 - a) *
          (s.getD (ia + 1) 0 - s.getD ia 0) :=
        mul_nonneg (by linarith) (by linarith)
      have e2 : s.getD (ia + 1) 0 ≤ s.getD (s.length - 1) 0 :=
        getD_mono_of_sorted hs (by omega) (by omega)
      nlinarith [hprod, e2]
  · rw [if_neg hA]
    have hB : ¬ (ib + 1 < s.length) := by omega
    rw [if_neg hB]

/-- The sorted copy used by `quantile` is a `≤`-sorted permutation of the
input. -/
lemma sortAsc_sorted (xs : List ℚ) : (sortAsc xs).Sorted (· ≤ ·) :=
  List.sorted_insertionSort (· ≤ ·) xs

lemma sortAsc_length (xs : List ℚ) : (sortAsc xs).length = xs.length :=
  (List.perm_insertionSort (· ≤ ·) xs).length_eq

/-- Quantiles of the same list are monotone in the probability level. -/
lemma quantile_mono (xs : List ℚ) (hne : xs ≠ []) {p q : ℚ}
    (hp : 0 ≤ p) (hpq : p ≤ q) (hq : q ≤ 1) :
    quantile xs p ≤ quantile xs q := by
  have hlen : (sortAsc xs).length = xs.length := sortAsc_length xs
  have hne' : sortAsc xs ≠ [] := by
    intro h
    have h0 : xs.length = 0 := by rw [← hlen, h]; rfl
    exact hne (List.length_eq_zero.mp h0)
  have hN0 : (0 : ℚ) ≤ ((sortAsc xs).length : ℚ) - 1 := by
    have h1 : 1 ≤ (sortAsc xs).length := List.length_pos.mpr hne'
    have : (1 : ℚ) ≤ ((sortAsc xs).length : ℚ) := by exact_mod_cast h1
    linarith
  unfold quantile quantileSorted
  exact interpAt_mono (sortAsc_sorted xs) hne'
    (mul_nonneg hp hN0)
    (mul_le_mul_of_nonneg_right hpq hN0)
    (by
      have := mul_le_mul_of_nonneg_right hq hN0
      simpa using this)

/-- C6: for every non-empty return distribution the 25th percentile is at
most the 75th percentile (quantile monotonicity), and the classification is
total: every target return maps to exactly one of the three
status/signal pairs. -/
theorem C6_quantile_monotone_and_total (xs : List ℚ) (hne : xs ≠ []) :
    quantile xs (1/4) ≤ quantile xs (3/4) ∧
    ∀ tgt : ℚ, ∃! r : String × Int,
      (r = ("Leading", 3) ∨ r = ("Underperforming", -3) ∨
        r = ("In-Line", 0)) ∧
      sectorComparison tgt xs = r := by
  constructor
  · exact quantile_mono xs hne (by norm_num) (by norm_num) (by norm_num)
  · intro tgt
    have hcl : ∀ t a b : ℚ,
        classify t a b = ("Leading", 3) ∨
        classify t a b = ("Underperforming", -3) ∨
        classify t a b = ("In-Line", 0) := by
      intro t a b
      unfold classify
      split
      · exact Or.inl rfl
      · split
        · exact Or.inr (Or.inl rfl)
        · exact Or.inr (Or.inr rfl)
    refine ⟨sectorComparison tgt xs, ⟨?_, rfl⟩, ?_⟩
    · rw [show sectorComparison tgt xs =
          classify tgt
            (quantile (if xs.isEmpty then [tgt] else xs) (3/4))
            (quantile (if xs.isEmpty then [tgt] else xs) (1/4)) from rfl]
      exact hcl tgt _ _
    · rintro r ⟨-, hr⟩
      exact hr.symm

/-- Witness for C6: the distribution `[1, 2, 3, 4]` has `q25 = 1.75 ≤
q75 = 3.25`, and target `4` maps to exactly one status pair. -/
theorem C6_quantile_monotone_and_total_witness :
    quantile [1, 2, 3, 4] (1/4) ≤ quantile [1, 2, 3, 4] (3/4) :=
  (C6_quantile_monotone_and_total [1, 2, 3, 4] (by decide)).1

/-- C9 counterexample: a concrete invocation — target "GE" with quotes
`(GE, 100, 105)`, peers `(XOM, 100, 97)` and `(CVX, 100, 101)` — sorts the
table to `[(Same Sector, XOM, "-3.00"), (Same Sector, CVX, "+1.00"),
(Target, GE, "+5.00")]`.
The Target row comes last, not first (group ascending is lexicographic and
"Same Sector" precedes "Target"), and within the Same Sector group the
return -3% precedes +1% (the "1-Day %" column holds formatted strings, so
descending string order puts "-3.00" above "+1.00": the character `-` is
greater than `+`), which is ascending — not descending — numeric order. -/
theorem C9_sort_counterexample :
    buildTable "GE" [("GE", 100, 105), ("XOM", 100, 97), ("CVX", 100, 101)] =
      [⟨"Same Sector", "XOM", 100, 97, "-3.00"⟩,
       ⟨"Same Sector", "CVX", 100, 101, "+1.00"⟩,
       ⟨"Target", "GE", 100, 105, "+5.00"⟩] ∧
    ("Same Sector" : String) ≠ "Target" ∧
    pctReturn 100 97 < pctReturn 100 101 := by
  have hR1 : mkRow "GE" "GE" 100 105 = ⟨"Target", "GE", 100, 105, "+5.00"⟩ := by
    unfold mkRow
    norm_num [pctReturn, fmt2]
    rfl
  have hR2 : mkRow "GE" "XOM" 100 97 =
      ⟨"Same Sector", "XOM", 100, 97, "-3.00"⟩ := by
    unfold mkRow
    norm_num [pctReturn, fmt2]
    exact ⟨fun h => absurd h (by decide), rfl⟩
  have hR3 : mkRow "GE" "CVX" 100 101 =
      ⟨"Same Sector", "CVX", 100, 101, "+1.00"⟩ := by
    unfold mkRow
    norm_num [pctReturn, fmt2]
    exact ⟨fun h => absurd h (by decide), rfl⟩
  refine ⟨?_, by decide, by norm_num [pctReturn]⟩
  unfold buildTable
  rw [show ([("GE", (100 : ℚ), (105 : ℚ)), ("XOM", 100, 97),
        ("CVX", 100, 101)].map (fun q => mkRow "GE" q.1 q.2.1 q.2.2)) =
      [mkRow "GE" "GE" 100 105, mkRow "GE" "XOM" 100 97,
        mkRow "GE" "CVX" 100 101] from rfl]
  rw [hR1, hR2, hR3]
  have h23 : rowLe ⟨"Same Sector", "XOM", 100, 97, "-3.00"⟩
      ⟨"Same Sector", "CVX", 100, 101, "+1.00"⟩ :=
    Or.inr ⟨rfl, Or.inl (by rw [String.lt_iff_toList_lt]; decide)⟩
  have h12 : ¬ rowLe ⟨"Target", "GE", 100, 105, "+5.00"⟩
      ⟨"Same Sector", "XOM", 100, 97, "-3.00"⟩ := by
    unfold rowLe
    push_neg
    refine ⟨?_, fun h => absurd h (by decide)⟩
    show ("Same Sector" : String) ≤ "Target"
    rw [String.le_iff_toList_le]; decide
  have h13 : ¬ rowLe ⟨"Target", "GE", 100, 105, "+5.00"⟩
      ⟨"Same Sector", "CVX", 100, 101, "+1.00"⟩ := by
    unfold rowLe
    push_neg
    refine ⟨?_, fun h => absurd h (by decide)⟩
    show ("Same Sector" : String) ≤ "Target"
    rw [String.le_iff_toList_le]; decide
  simp [sortTable, List.insertionSort, List.orderedInsert, h23, h12, h13]

/-- C9 amended: the returned comparison table is sorted primarily by group
label in ascending lexicographic order — which places the "Same Sector"
rows before the "Target" row, since "Same Sector" < "Target" — and
secondarily by the formatted percent string in descending lexicographic
(string, not numeric) order. -/
theorem C9_table_sort_order (rows : List Row) :
    (sortTable rows).Pairwise
      (fun a b => a.group < b.group ∨
        (a.group = b.group ∧ (b.pct < a.pct ∨ a.pct = b.pct))) ∧
    (("Same Sector" : String) < "Target") := by
  constructor
  · exact List.sorted_insertionSort rowLe rows
  · rw [String.lt_iff_toList_lt]; decide

end SectorPerf
